import Mathlib

/-!
Shallow embedding of the DevzServer process lifecycle supervisor
(src/src/server/MinecraftServer.js and the socket command handler).

The JavaScript class is single threaded (Node event loop); we model its
mutable fields as an explicit record `SrvState` and each event handler or
method as a pure function from state (plus the relevant environment
inputs) to a new state together with the list of events it emits and the
timers it schedules.  Machine integers do not overflow in the ranges the
code uses, so `Nat` is used throughout.
-/

namespace DevzServer

/-- Lifecycle state.  The spec names four states; the code only ever
assigns the strings stopped, starting and running to `this.status`,
but we include `stopping` in the type so claims about it can be stated. -/
inductive Status where
  | stopped
  | starting
  | running
  | stopping
deriving DecidableEq, Repr

/-- Events emitted over the socket (io.emit) or over the EventEmitter
interface of the class.  `crashAlert` is the event named by the spec
interface section; the embedding lets us state whether the code ever
emits it. -/
inductive Event where
  | status (s : Status)
  | console (msg : String)
  | stoppedEvt (wasIntentional : Bool)
  | crashAlert (attempts : Nat)
deriving DecidableEq, Repr

/-- A spawned child process handle: its pid and whether its stdin stream
is writable.  Handle identity (the `===` comparison in the timers) is
modelled by `DecidableEq`; distinct launches get distinct pids. -/
structure Proc where
  pid : Nat
  stdinWritable : Bool
deriving DecidableEq, Repr

/-- The configuration record fields the supervisor reads
(config.server.*).  `Option` models absent YAML keys. -/
structure Config where
  auto_restart : Bool
  max_restart_attempts : Option Nat
  memory : Option String
deriving DecidableEq, Repr

/-- JavaScript `x || d` on a possibly absent number: both `undefined`
and `0` are falsy. -/
def jsOrNat : Option Nat → Nat → Nat
  | none, d => d
  | some 0, d => d
  | some (n + 1), _ => n + 1

/-- JavaScript `x || d` on a possibly absent string: both `undefined`
and the empty string are falsy. -/
def jsOrStr : Option String → String → String
  | none, d => d
  | some s, d => if s = "" then d else s

/-- Substring occurrence over character lists (structural recursion so
that concrete instances reduce). -/
def containsSub (hay nee : List Char) : Bool :=
  match hay with
  | [] => nee.isEmpty
  | h :: t => nee.isPrefixOf (h :: t) || containsSub t nee

/-- JavaScript `str.includes(sub)`. -/
def jsIncludes (s sub : String) : Bool :=
  containsSub s.data sub.data

/-- JavaScript `str.trim()`: strips leading and trailing whitespace. -/
def jsTrim (s : String) : String :=
  ⟨((s.data.dropWhile Char.isWhitespace).reverse.dropWhile Char.isWhitespace).reverse⟩

/-- The mutable fields of the `MinecraftServer` instance, plus
`restartPending`, which models whether the one-shot `stopped` listener
installed by `restart()` is currently registered. -/
structure SrvState where
  process : Option Proc
  status : Status
  shouldStop : Bool
  crashCount : Nat
  lastCrashTime : Nat
  restartPending : Bool
deriving DecidableEq, Repr

/-! ### I/O bridge: sendCommand and the socket command handler -/

/-- `sendCommand(cmd)` (MinecraftServer.js lines 335-339): writes
`cmd + "\n"` to stdin when a process exists and its stdin is writable,
otherwise does nothing.  The return value is the string written, if any. -/
def sendCommand (process : Option Proc) (cmd : String) : Option String :=
  match process with
  | some p => if p.stdinWritable then some (cmd ++ "\n") else none
  | none => none

/-- The socket `command` handler (Socket.IO file lines 22-29): rejects
non-strings (vacuous here) and strings longer than 500, trims the text,
drops whitespace-only commands, and forwards the trimmed text to
`sendCommand`. -/
def socketCommand (process : Option Proc) (cmd : String) : Option String :=
  if cmd.length > 500 then none
  else
    let sanitized := jsTrim cmd
    if sanitized = "" then none
    else sendCommand process sanitized

/-! ### Resource planner: getMemoryArgs -/

/-- Digits-to-number, as `parseInt` does on the digit group matched by
the regex. -/
def digitsToNat (cs : List Char) : Nat :=
  cs.foldl (fun a c => a * 10 + (c.toNat - 48)) 0

/-- The regex match `^(\d+)(M|G)$/i` of `getMemoryArgs`: a nonempty
digit string followed by one of M, m, G, g.  Returns the numeric value
and whether the (upper-cased) unit is G. -/
def parseMem (s : String) : Option (Nat × Bool) :=
  match s.data.getLast? with
  | none => none
  | some u =>
    let ds := s.data.dropLast
    if ds ≠ [] ∧ ds.all Char.isDigit ∧ (u == 'M' || u == 'm' || u == 'G' || u == 'g') then
      some (digitsToNat ds, u == 'G' || u == 'g')
    else none

/-- `getMemoryArgs` (lines 36-59), returning the Xmx and Xms amounts in
MB.  `Math.floor(total * 0.7)` and `Math.floor(actual * 0.25)` are
modelled as Nat division (0.25 is exact in binary floating point;
the 0.7 clamp can differ from the float by at most one unit on
adversarial totals, which no claim depends on). -/
def getMemoryArgs (cfgMemory : Option String) (totalSystemMB : Nat) : Nat × Nat :=
  let configMemory := jsOrStr cfgMemory "1G"
  match parseMem configMemory with
  | none => (512, 256)
  | some (memValue, isG) =>
    let configMemMB := if isG then memValue * 1024 else memValue
    let maxAllowed := totalSystemMB * 7 / 10
    let actualMemMB := min configMemMB maxAllowed
    let minMemMB := min 256 (actualMemMB * 25 / 100)
    (actualMemMB, minMemMB)

/-! ### Asset provisioner: downloadFile -/

/-- One HTTP response as the download code discriminates them:
a 301/302 redirect with a Location, a 200 success, any other status,
or a network error on the request. -/
inductive Response where
  | redirect (location : String)
  | ok
  | failStatus (code : Nat)
  | netError
deriving DecidableEq, Repr

/-- Download failure taxonomy. -/
inductive DlError where
  | status (code : Nat)
  | net
deriving DecidableEq, Repr

/-- Outcome of running `downloadFile` against a finite prefix of the
response sequence served by the environment: `result = none` means the
procedure is still going (it has consumed every response so far and is
awaiting another request); `fileExists` says whether the destination
file is on disk afterwards. -/
structure DlOutcome where
  result : Option (Except DlError Unit)
  fileExists : Bool
deriving Repr

/-- `downloadFile` (lines 64-94) run against a list of responses, one
per HTTP request issued.  Each request first creates the write stream
(so the file exists while a request is in flight); a 301/302 deletes the
file and recurses on the Location; any other non-200 status deletes the
file and rejects; a network error deletes the file and rejects; a 200
streams the body and resolves.  The code imposes no limit on the
recursion. -/
def downloadRun : List Response → DlOutcome
  | [] => ⟨none, true⟩
  | Response.redirect _ :: rest => downloadRun rest
  | Response.ok :: _ => ⟨some (Except.ok ()), true⟩
  | Response.failStatus c :: _ => ⟨some (Except.error (DlError.status c)), false⟩
  | Response.netError :: _ => ⟨some (Except.error DlError.net), false⟩

/-! ### Lifecycle controller: start -/

/-- The environment a single `start()` call runs against: server type,
whether the java runtime is installed, whether the artifact file exists
beforehand, whether a download url is configured and whether the
download succeeds, whether the spawn call succeeds, and the handle the
spawn produces. -/
structure StartEnv where
  isJava : Bool
  javaInstalled : Bool
  fileExists : Bool
  hasDownloadUrl : Bool
  downloadOk : Bool
  spawnOk : Bool
  newProc : Proc
deriving DecidableEq, Repr

/-- Result of one `start()` call: the new state, the events emitted
during the call, and how many processes were spawned by it. -/
structure StartResult where
  state : SrvState
  events : List Event
  spawned : Nat
deriving DecidableEq, Repr

/-- `start()` (lines 108-211, stream handlers modelled separately).
Returns immediately when the status is not `stopped`; otherwise clears
`shouldStop`, moves to `starting`, and walks the failure chain: missing
java runtime, failed download, missing artifact, failed spawn — each of
which reports and returns the status to `stopped` — or records the new
process handle on success. -/
def start (env : StartEnv) (st : SrvState) : StartResult :=
  if st.status ≠ Status.stopped then ⟨st, [], 0⟩
  else
    let st1 : SrvState := { st with shouldStop := false, status := Status.starting }
    let evs1 : List Event := [Event.status Status.starting,
      Event.console "--- Server starting... ---"]
    if env.isJava ∧ ¬ env.javaInstalled then
      ⟨{ st1 with status := Status.stopped },
       evs1 ++ [Event.console "[ERROR] Java is not installed! Please install Java 17+ to run a Java server.",
                Event.status Status.stopped], 0⟩
    else if ¬ env.fileExists ∧ env.hasDownloadUrl ∧ ¬ env.downloadOk then
      ⟨{ st1 with status := Status.stopped },
       evs1 ++ [Event.console "[ERROR] Download failed",
                Event.status Status.stopped], 0⟩
    else if ¬ env.fileExists ∧ ¬ env.hasDownloadUrl then
      ⟨{ st1 with status := Status.stopped },
       evs1 ++ [Event.console "[ERROR] Server file not found and no download URL configured.",
                Event.status Status.stopped], 0⟩
    else if ¬ env.spawnOk then
      ⟨{ st1 with status := Status.stopped },
       evs1 ++ [Event.console "[ERROR] Failed to spawn process",
                Event.status Status.stopped], 0⟩
    else
      ⟨{ st1 with process := some env.newProc },
       evs1 ++ [Event.console ("[SYSTEM] Process started with PID: " ++ toString env.newProc.pid)], 1⟩

/-! ### I/O bridge: the stdout data handler and the ready marker -/

/-- Whether a stdout chunk, after `trim`, contains one of the ready
markers (line 216). -/
def isReadyLine (data : String) : Bool :=
  jsIncludes (jsTrim data) "Done" || jsIncludes (jsTrim data) "Server started"

/-- The `stdout.on(data)` handler (lines 213-221): logs the trimmed
chunk when nonempty; on a ready-marker match sets the status to
`running`, resets the crash counter, and emits a `running` status
event.  The code performs this on every match, with no first-match
guard. -/
def onStdoutData (data : String) (st : SrvState) : SrvState × List Event :=
  let str := jsTrim data
  let evs : List Event := if str = "" then [] else [Event.console str]
  if isReadyLine data then
    ({ st with status := Status.running, crashCount := 0 },
     evs ++ [Event.status Status.running])
  else (st, evs)

/-- Feed a sequence of stdout chunks through the handler, collecting
all emitted events in order. -/
def processLines : List String → SrvState → SrvState × List Event
  | [], st => (st, [])
  | l :: ls, st =>
      let r := onStdoutData l st
      let rest := processLines ls r.1
      (rest.1, r.2 ++ rest.2)

/-- Number of `running` status events in an event list. -/
def countRunning (evs : List Event) : Nat :=
  evs.countP fun e => decide (e = Event.status Status.running)

/-! ### Shutdown escalator: stop and its timers -/

/-- Delay of the SIGTERM timer (line 288). -/
def termDelay : Nat := 10000

/-- Delay of the SIGKILL timer (line 296). -/
def killDelay : Nat := 25000

/-- The pair of escalation timers armed by one `stop()` call, carrying
the handle they captured (`processToKill`). -/
structure StopTimers where
  captured : Proc
  termDeadline : Nat
  killDeadline : Nat
deriving DecidableEq, Repr

/-- Result of one `stop()` call: the new state, the events emitted, the
string written down the graceful path (sendCommand) and the timers the
call armed. -/
structure StopResult where
  state : SrvState
  events : List Event
  gracefulWrite : Option String
  timers : Option StopTimers
deriving DecidableEq, Repr

/-- `stop()` (lines 270-307): no-op without a process; otherwise sets
`shouldStop`, sends the graceful `stop` command down stdin, and arms
the SIGTERM/SIGKILL timers against the captured handle.  The status
field is not assigned anywhere in this method. -/
def stop (st : SrvState) : StopResult :=
  match st.process with
  | none => ⟨st, [], none, none⟩
  | some p =>
      ⟨{ st with shouldStop := true },
       [Event.console ("--- Stopping server (PID " ++ toString p.pid ++ ")... ---")],
       sendCommand (some p) "stop",
       some ⟨p, termDelay, killDelay⟩⟩

/-- Signals the escalation can send. -/
inductive Signal where
  | SIGTERM
  | SIGKILL
deriving DecidableEq, Repr

/-- The body of either escalation timer callback (lines 283-296): the
guard `this.process && this.process === processToKill` compares the
current handle against the captured one; the signal is sent only when
they are the same handle. -/
def killCallback (current : Option Proc) (captured : Proc) (sig : Signal) : Option Signal :=
  if current = some captured then some sig else none

/-- Whether a timer armed at time 0 with the given deadline runs at all,
given that the process-close event at `exitAt` clears both timers
(lines 299-306): it runs exactly when the process is still open past
the deadline. -/
def timerRuns (deadline exitAt : Nat) : Bool :=
  decide (deadline < exitAt)

/-- The signals one `stop()` escalation sends to a process that stays
the current handle until it exits `exitAt` milliseconds after the
graceful command. -/
def stopSignals (t : StopTimers) (exitAt : Nat) : List Signal :=
  (if timerRuns t.termDeadline exitAt then
     (killCallback (some t.captured) t.captured Signal.SIGTERM).toList
   else []) ++
  (if timerRuns t.killDeadline exitAt then
     (killCallback (some t.captured) t.captured Signal.SIGKILL).toList
   else [])

/-! ### Crash / restart policy: the close handler -/

/-- The crash-count reset window (line 251): ten minutes. -/
def resetWindow : Nat := 10 * 60 * 1000

/-- Result of the `close` handler: the new state, the events emitted,
the delay of the crash auto-restart timer it scheduled (if any), and
the delay of the `start()` scheduled by the restart listener (if one
was registered). -/
structure CloseResult where
  state : SrvState
  events : List Event
  crashRestartDelay : Option Nat
  restartStartDelay : Option Nat
deriving DecidableEq, Repr

/-- The `process.on(close)` handler (lines 235-267), with `now` the
value of `Date.now()` there.  In source order: status becomes
`stopped` and is emitted, the handle is dropped, the `stopped`
EventEmitter event fires carrying `wasIntentional = shouldStop` — at
which point the one-shot listener installed by `restart()`, if
registered, runs synchronously, clearing `shouldStop` and scheduling a
`start()` in 2000 ms — and only then does the handler evaluate the
auto-restart branch against the (possibly just cleared) `shouldStop`
flag: reset the crash counter when the previous crash is older than the
window, record and bump the counter, and either schedule a restart
after `min(5000 * counter, 30000)` or log that auto-restart is
disabled. -/
def onClose (cfg : Config) (now : Nat) (st : SrvState) : CloseResult :=
  let st1 : SrvState := { st with status := Status.stopped, process := none }
  let evs1 : List Event := [Event.status Status.stopped,
    Event.console "--- Server stopped ---",
    Event.stoppedEvt st.shouldStop]
  let st2 : SrvState :=
    if st1.restartPending then { st1 with shouldStop := false, restartPending := false } else st1
  let restartStartDelay : Option Nat := if st1.restartPending then some 2000 else none
  if st2.shouldStop = false ∧ cfg.auto_restart then
    let maxAttempts := jsOrNat cfg.max_restart_attempts 5
    let cc0 := if resetWindow < now - st2.lastCrashTime then 0 else st2.crashCount
    let cc := cc0 + 1
    let st3 : SrvState := { st2 with lastCrashTime := now, crashCount := cc }
    if cc ≤ maxAttempts then
      ⟨st3,
       evs1 ++ [Event.console ("[SYSTEM] Server crashed unexpectedly. Auto-restarting... (attempt " ++ toString cc ++ "/" ++ toString maxAttempts ++ ")")],
       some (min (5000 * cc) 30000),
       restartStartDelay⟩
    else
      ⟨st3,
       evs1 ++ [Event.console ("[SYSTEM] Server crashed " ++ toString cc ++ " times. Auto-restart disabled. Please check server logs.")],
       none,
       restartStartDelay⟩
  else
    ⟨st2, evs1, none, restartStartDelay⟩

/-- The crash auto-restart timer callback (lines 260-262): calls
`start()` unless `shouldStop` was set in the meantime. -/
def crashTimerFire (env : StartEnv) (st : SrvState) : StartResult :=
  if st.shouldStop then ⟨st, [], 0⟩ else start env st

/-- A run of consecutive unintentional exits: at each listed time the
current process closes, and the crash timer then relaunches.  Collects
the restart delay scheduled by each close. -/
def crashRun (cfg : Config) (env : StartEnv) : List Nat → SrvState → List (Option Nat)
  | [], _ => []
  | t :: ts, st =>
      let r := onClose cfg t st
      let s := crashTimerFire env r.state
      r.crashRestartDelay :: crashRun cfg env ts s.state

/-! ### Lifecycle controller: restart -/

/-- Result of one `restart()` call: the new state, events, the graceful
write and timers of the inner `stop()` (when one ran), and whether the
call delegated directly to `start()` because the server was stopped. -/
structure RestartResult where
  state : SrvState
  events : List Event
  gracefulWrite : Option String
  timers : Option StopTimers
  startedImmediately : Bool
deriving DecidableEq, Repr

/-- `restart()` (lines 309-333): clears `shouldStop`; if stopped,
delegates to `start()`; otherwise registers the one-shot `stopped`
listener (modelled by `restartPending := true`) and calls `stop()`. -/
def restart (st : SrvState) : RestartResult :=
  let st0 : SrvState := { st with shouldStop := false }
  if st0.status = Status.stopped then
    ⟨st0, [], none, none, true⟩
  else
    let st1 : SrvState := { st0 with restartPending := true }
    let r := stop st1
    ⟨r.state, Event.console "--- Restarting server... ---" :: r.events,
     r.gracefulWrite, r.timers, false⟩

/-! ## Theorems about the claims -/

/-- Claim C1: for every state other than `stopped` (that is `starting`,
`running`, or `stopping`), calling `start()` is a no-op: no process is
spawned, the status field is unchanged, and no event is emitted. -/
theorem start_noop_when_not_stopped (env : StartEnv) (st : SrvState)
    (h : st.status ≠ Status.stopped) :
    start env st = ⟨st, [], 0⟩ := by
  unfold start
  rw [if_pos h]

/-- Witness for C1: a concrete `running` state on which `start()` does
nothing. -/
theorem start_noop_when_not_stopped_witness :
    (⟨none, Status.running, false, 0, 0, false⟩ : SrvState).status ≠ Status.stopped ∧
      start ⟨true, true, true, false, false, true, ⟨2, true⟩⟩
          ⟨none, Status.running, false, 0, 0, false⟩ =
        ⟨⟨none, Status.running, false, 0, 0, false⟩, [], 0⟩ :=
  ⟨by decide,
   start_noop_when_not_stopped ⟨true, true, true, false, false, true, ⟨2, true⟩⟩
     ⟨none, Status.running, false, 0, 0, false⟩ (by decide)⟩

/-- Counterexample to claim C2 as stated: `stop()` on a running server
with a live process leaves the status field at `running`; it does not
transition the lifecycle state to `stopping`. -/
theorem stop_does_not_enter_stopping :
    (stop ⟨some ⟨3, true⟩, Status.running, false, 0, 0, false⟩).state.status
        = Status.running ∧
      Status.running ≠ Status.stopping := by
  decide

/-- Claim C2 as amended: `stop()` is a no-op when no process handle
exists; when a handle exists it marks the pending exit as intentional
(`shouldStop := true`), sends the graceful stop command, and arms the
escalation timers — but it leaves the status field unchanged (no
`stopping` state is ever entered). -/
theorem stop_spec (st : SrvState) (p : Proc) (h : st.process = some p) :
    (stop st).state = { st with shouldStop := true } ∧
    (stop st).state.status = st.status ∧
    (stop st).gracefulWrite = sendCommand (some p) "stop" ∧
    (stop st).timers = some ⟨p, termDelay, killDelay⟩ ∧
    stop { st with process := none } = ⟨{ st with process := none }, [], none, none⟩ := by
  refine ⟨?_, ?_, ?_, ?_, ?_⟩ <;> simp [stop, h]

/-- Witness for the amended C2 at a concrete running state. -/
theorem stop_spec_witness :
    (⟨some ⟨3, true⟩, Status.running, false, 0, 0, false⟩ : SrvState).process = some ⟨3, true⟩ ∧
      ((stop ⟨some ⟨3, true⟩, Status.running, false, 0, 0, false⟩).state
          = { (⟨some ⟨3, true⟩, Status.running, false, 0, 0, false⟩ : SrvState) with shouldStop := true } ∧
        (stop ⟨some ⟨3, true⟩, Status.running, false, 0, 0, false⟩).state.status = Status.running ∧
        (stop ⟨some ⟨3, true⟩, Status.running, false, 0, 0, false⟩).gracefulWrite
          = sendCommand (some ⟨3, true⟩) "stop" ∧
        (stop ⟨some ⟨3, true⟩, Status.running, false, 0, 0, false⟩).timers
          = some ⟨⟨3, true⟩, termDelay, killDelay⟩ ∧
        stop { (⟨some ⟨3, true⟩, Status.running, false, 0, 0, false⟩ : SrvState) with process := none }
          = ⟨{ (⟨some ⟨3, true⟩, Status.running, false, 0, 0, false⟩ : SrvState) with process := none },
             [], none, none⟩) :=
  ⟨rfl, stop_spec ⟨some ⟨3, true⟩, Status.running, false, 0, 0, false⟩ ⟨3, true⟩ rfl⟩

/-- Claim C7: the shutdown escalation.  `stop()` arms a SIGTERM timer at
10 s and a SIGKILL timer at 25 s against the captured handle.  If the
process exits within 10 s of the graceful command no signal is ever
sent; if it exits between 10 s and 25 s exactly one SIGTERM and no
SIGKILL is sent; if it survives past 25 s a SIGKILL is sent; and a timer
that fires when the current handle differs from the captured one sends
nothing. -/
theorem shutdown_escalation (st : SrvState) (p : Proc) (exitAt : Nat)
    (cur : Option Proc) (sig : Signal)
    (hp : st.process = some p) (hcur : cur ≠ some p) :
    (stop st).timers = some ⟨p, termDelay, killDelay⟩ ∧
    termDelay = 10000 ∧ killDelay = 25000 ∧
    (exitAt ≤ termDelay → stopSignals ⟨p, termDelay, killDelay⟩ exitAt = []) ∧
    (termDelay < exitAt → exitAt ≤ killDelay →
      stopSignals ⟨p, termDelay, killDelay⟩ exitAt = [Signal.SIGTERM]) ∧
    (killDelay < exitAt →
      stopSignals ⟨p, termDelay, killDelay⟩ exitAt = [Signal.SIGTERM, Signal.SIGKILL]) ∧
    killCallback cur p sig = none := by
  refine ⟨by simp [stop, hp], rfl, rfl, ?_, ?_, ?_, by simp [killCallback, hcur]⟩
  · intro h
    have h1 : ¬ (termDelay < exitAt) := Nat.not_lt.mpr h
    have h2 : ¬ (killDelay < exitAt) := by
      simp only [termDelay, killDelay] at *
      omega
    simp [stopSignals, timerRuns, h1, h2]
  · intro h1 h2
    have h2n : ¬ (killDelay < exitAt) := Nat.not_lt.mpr h2
    simp [stopSignals, timerRuns, killCallback, h1, h2n]
  · intro h2
    have h1 : termDelay < exitAt := by
      simp only [termDelay, killDelay] at *
      omega
    simp [stopSignals, timerRuns, killCallback, h1, h2]

/-- Witness for C7 at a concrete stop of pid 2 with exit at 15 s and a
replaced handle. -/
theorem shutdown_escalation_witness :
    (⟨some ⟨2, true⟩, Status.running, false, 0, 0, false⟩ : SrvState).process = some ⟨2, true⟩ ∧
      (none : Option Proc) ≠ some ⟨2, true⟩ ∧
      ((stop ⟨some ⟨2, true⟩, Status.running, false, 0, 0, false⟩).timers
          = some ⟨⟨2, true⟩, termDelay, killDelay⟩ ∧
        termDelay = 10000 ∧ killDelay = 25000 ∧
        (15000 ≤ termDelay → stopSignals ⟨⟨2, true⟩, termDelay, killDelay⟩ 15000 = []) ∧
        (termDelay < 15000 → 15000 ≤ killDelay →
          stopSignals ⟨⟨2, true⟩, termDelay, killDelay⟩ 15000 = [Signal.SIGTERM]) ∧
        (killDelay < 15000 →
          stopSignals ⟨⟨2, true⟩, termDelay, killDelay⟩ 15000 = [Signal.SIGTERM, Signal.SIGKILL]) ∧
        killCallback none ⟨2, true⟩ Signal.SIGKILL = none) :=
  ⟨rfl, by decide,
   shutdown_escalation ⟨some ⟨2, true⟩, Status.running, false, 0, 0, false⟩ ⟨2, true⟩ 15000
     none Signal.SIGKILL rfl (by decide)⟩

/-- Counterexample to claim C8 as stated: sending the command
`"say hi "` (trailing blank, well under the length limit, process
present and writable) writes `"say hi\n"` — the trimmed text — not
exactly the given text followed by a newline. -/
theorem socketCommand_trims_text :
    socketCommand (some ⟨1, true⟩) "say hi " = some "say hi\n" ∧
      ("say hi\n" : String) ≠ "say hi " ++ "\n" := by
  decide

/-- Claim C8 as amended: through the socket command channel, text
longer than 500 characters is rejected with no write; with no process,
or a process whose stdin is not writable, nothing is written (and
`sendCommand` itself is a no-op without a process); otherwise the
trimmed text followed by one newline is written.  The length check
lives in the socket handler, not in `sendCommand`. -/
theorem sendCommand_spec (p q : Proc) (cmd long : String)
    (hlen : cmd.length ≤ 500) (hw : p.stdinWritable = true)
    (hq : q.stdinWritable = false) (hne : jsTrim cmd ≠ "")
    (hlong : long.length > 500) :
    socketCommand (some p) long = none ∧
    socketCommand none cmd = none ∧
    sendCommand none cmd = none ∧
    sendCommand (some q) cmd = none ∧
    socketCommand (some p) cmd = some (jsTrim cmd ++ "\n") := by
  refine ⟨?_, ?_, rfl, ?_, ?_⟩
  · simp [socketCommand, hlong]
  · simp [socketCommand, sendCommand, Nat.not_lt.mpr hlen, hne]
  · simp [sendCommand, hq]
  · simp [socketCommand, sendCommand, Nat.not_lt.mpr hlen, hne, hw]

set_option maxRecDepth 4096 in
/-- Witness for the amended C8 at concrete commands. -/
theorem sendCommand_spec_witness :
    ("say hi " : String).length ≤ 500 ∧
      (⟨1, true⟩ : Proc).stdinWritable = true ∧
      (⟨2, false⟩ : Proc).stdinWritable = false ∧
      jsTrim "say hi " ≠ "" ∧
      (⟨List.replicate 501 'a'⟩ : String).length > 500 ∧
      (socketCommand (some ⟨1, true⟩) ⟨List.replicate 501 'a'⟩ = none ∧
        socketCommand none "say hi " = none ∧
        sendCommand none "say hi " = none ∧
        sendCommand (some ⟨2, false⟩) "say hi " = none ∧
        socketCommand (some ⟨1, true⟩) "say hi " = some (jsTrim "say hi " ++ "\n")) :=
  ⟨by decide, rfl, rfl, by decide, by decide,
   sendCommand_spec ⟨1, true⟩ ⟨2, false⟩ "say hi " ⟨List.replicate 501 'a'⟩
     (by decide) rfl rfl (by decide) (by decide)⟩

/-- Counterexample to claim C9 as stated: with configured memory
`512M` and a 10000 MB host, the clamped maximum is 512 MB and the
computed minimum allocation is 128 MB — strictly below the fixed
256 MB bound, so the minimum is not floored at that bound. -/
theorem memory_min_below_fixed_bound :
    getMemoryArgs (some "512M") 10000 = (512, 128) ∧ 128 < 256 := by
  decide

/-- Claim C9 as amended: the minimum allocation equals
`min 256 (clamped * 25 / 100)` — one quarter of the clamped maximum
CAPPED at 256 MB from above (so it is always at most 256 MB, not at
least); the maximum is clamped to at most 70 percent of host memory;
and a parse failure of the configured quantity falls back to the fixed
defaults Xmx 512 MB, Xms 256 MB. -/
theorem getMemoryArgs_spec (cfgMemory : Option String) (totalSystemMB : Nat)
    (memValue : Nat) (isG : Bool) (bad : String)
    (hparse : parseMem (jsOrStr cfgMemory "1G") = some (memValue, isG))
    (hbad : parseMem (jsOrStr (some bad) "1G") = none) :
    getMemoryArgs cfgMemory totalSystemMB =
      (min (if isG then memValue * 1024 else memValue) (totalSystemMB * 7 / 10),
       min 256
         (min (if isG then memValue * 1024 else memValue) (totalSystemMB * 7 / 10) * 25 / 100)) ∧
    (getMemoryArgs cfgMemory totalSystemMB).2 ≤ 256 ∧
    (getMemoryArgs cfgMemory totalSystemMB).1 ≤ totalSystemMB * 7 / 10 ∧
    getMemoryArgs (some bad) totalSystemMB = (512, 256) := by
  refine ⟨?_, ?_, ?_, ?_⟩
  · simp [getMemoryArgs, hparse]
  · simp [getMemoryArgs, hparse]
  · simp [getMemoryArgs, hparse]
  · simp [getMemoryArgs, hbad]

/-- Witness for the amended C9: configured `2G` on a 10000 MB host
(clamped to 2048 MB, minimum 256 MB) and an unparsable `abc`. -/
theorem getMemoryArgs_spec_witness :
    parseMem (jsOrStr (some "2G") "1G") = some (2, true) ∧
      parseMem (jsOrStr (some "abc") "1G") = none ∧
      (getMemoryArgs (some "2G") 10000 =
          (min (if true then 2 * 1024 else 2) (10000 * 7 / 10),
           min 256 (min (if true then 2 * 1024 else 2) (10000 * 7 / 10) * 25 / 100)) ∧
        (getMemoryArgs (some "2G") 10000).2 ≤ 256 ∧
        (getMemoryArgs (some "2G") 10000).1 ≤ 10000 * 7 / 10 ∧
        getMemoryArgs (some "abc") 10000 = (512, 256)) :=
  ⟨by decide, by decide,
   getMemoryArgs_spec (some "2G") 10000 2 true "abc" (by decide) (by decide)⟩

/-- Counterexample to claim C10 as stated: after one hundred
consecutive redirect responses the download has neither resolved nor
failed — it is still following redirects — and it happily follows the
hundred-and-first response too, so no small bound on the number of
followed redirects exists. -/
theorem download_follows_hundredth_redirect :
    (downloadRun (List.replicate 100 (Response.redirect "loc"))).result = none ∧
      downloadRun (List.replicate 100 (Response.redirect "loc") ++ [Response.ok]) =
        ⟨some (Except.ok ()), true⟩ := by
  exact ⟨rfl, rfl⟩

/-- Claim C10 as amended: `downloadFile` follows 301/302 redirects with
no bound on their number (after any number of consecutive redirects it
is still running), and it fails on any other non-success status or on a
network error, deleting the partial file in both failure cases, while a
success keeps the file and resolves. -/
theorem downloadRun_spec (n : Nat) (loc : String) (c : Nat) (rest : List Response) :
    (downloadRun (List.replicate n (Response.redirect loc))).result = none ∧
    downloadRun (Response.redirect loc :: rest) = downloadRun rest ∧
    downloadRun (Response.failStatus c :: rest) =
      ⟨some (Except.error (DlError.status c)), false⟩ ∧
    downloadRun (Response.netError :: rest) = ⟨some (Except.error DlError.net), false⟩ ∧
    downloadRun (Response.ok :: rest) = ⟨some (Except.ok ()), true⟩ := by
  refine ⟨?_, rfl, rfl, rfl, rfl⟩
  induction n with
  | zero => rfl
  | succ m ih => simpa [List.replicate_succ, downloadRun] using ih

/-! ### Lemmas on the stdout handler -/

/-- Each stdout chunk contributes exactly one `running` status event
when it matches the ready marker and none otherwise. -/
theorem countRunning_onStdoutData (data : String) (st : SrvState) :
    countRunning (onStdoutData data st).2 = if isReadyLine data then 1 else 0 := by
  unfold onStdoutData countRunning
  by_cases h : isReadyLine data <;>
    by_cases h2 : jsTrim data = "" <;>
      simp [h, h2]

/-- `countRunning` is additive over concatenation. -/
theorem countRunning_append (a b : List Event) :
    countRunning (a ++ b) = countRunning a + countRunning b := by
  unfold countRunning
  exact List.countP_append _ _ _

/-- The number of `running` status events a run of stdout chunks emits
equals the number of chunks matching the ready marker. -/
theorem countRunning_processLines (lines : List String) (st : SrvState) :
    countRunning (processLines lines st).2 = lines.countP isReadyLine := by
  induction lines generalizing st with
  | nil => simp [processLines, countRunning]
  | cons l ls ih =>
      unfold processLines
      rw [countRunning_append, countRunning_onStdoutData, ih, List.countP_cons]
      by_cases h : isReadyLine l
      · simp [h]
        omega
      · simp [h]

/-- After a run of stdout chunks, the status is `running` when some
chunk matched the ready marker and is untouched otherwise. -/
theorem processLines_status (lines : List String) (st : SrvState) :
    (processLines lines st).1.status =
      if lines.any isReadyLine then Status.running else st.status := by
  induction lines generalizing st with
  | nil => simp [processLines]
  | cons l ls ih =>
      unfold processLines onStdoutData
      by_cases h : isReadyLine l <;> simp [h, ih]

/-- Counterexample to claim C3 as stated: from a `starting` state, two
consecutive stdout lines containing the ready marker produce two
`running` status events — the second matching line is not ignored. -/
theorem ready_marker_reemits_running :
    countRunning
        (processLines ["Done", "Done"]
          ⟨some ⟨1, true⟩, Status.starting, false, 3, 0, false⟩).2 = 2 := by
  decide

/-- Claim C3 as amended: every ready-marker match on stdout (not only
the first) emits a `running` status event — the run emits exactly one
such event per matching line — and once any line has matched, the
status value is `running`; the transition is triggered by the first
match and later matches merely reassign the same value. -/
theorem ready_marker_transitions (lines : List String) (st : SrvState)
    (h : lines.any isReadyLine = true) :
    countRunning (processLines lines st).2 = lines.countP isReadyLine ∧
    (processLines lines st).1.status = Status.running := by
  refine ⟨countRunning_processLines lines st, ?_⟩
  rw [processLines_status, h]
  rfl

/-- Witness for the amended C3: two `Done` lines from `starting` give
two `running` events and a final `running` status. -/
theorem ready_marker_transitions_witness :
    (["Done", "Done"].any isReadyLine = true) ∧
      (countRunning
          (processLines ["Done", "Done"]
            ⟨some ⟨1, true⟩, Status.starting, false, 3, 0, false⟩).2
          = ["Done", "Done"].countP isReadyLine ∧
        (processLines ["Done", "Done"]
            ⟨some ⟨1, true⟩, Status.starting, false, 3, 0, false⟩).1.status
          = Status.running) :=
  ⟨by decide,
   ready_marker_transitions ["Done", "Done"]
     ⟨some ⟨1, true⟩, Status.starting, false, 3, 0, false⟩ (by decide)⟩

/-! ### Lemmas on the close handler and the crash policy -/

/-- A `start()` from `stopped` always clears `shouldStop` and touches
neither the crash counter, the crash timestamp, nor the restart
listener flag, whichever branch it takes. -/
theorem start_fields_of_stopped (env : StartEnv) (st : SrvState)
    (h : st.status = Status.stopped) :
    (start env st).state.shouldStop = false ∧
    (start env st).state.restartPending = st.restartPending ∧
    (start env st).state.crashCount = st.crashCount ∧
    (start env st).state.lastCrashTime = st.lastCrashTime := by
  unfold start
  rw [if_neg (by simp [h])]
  repeat' split
  all_goals exact ⟨rfl, rfl, rfl, rfl⟩

/-- The state the close handler leaves behind after an unintentional
exit at time `now` that stays within the reset window: counter bumped,
timestamp recorded, handle dropped. -/
def crashedState (st : SrvState) (now : Nat) : SrvState :=
  { st with
      status := Status.stopped
      process := none
      lastCrashTime := now
      crashCount := st.crashCount + 1 }

/-- Evaluation of the close handler on an unintentional exit within the
reset window and within the restart budget: the counter bumps, the
timestamp is recorded, and a restart is scheduled after
`min (5000 * counter) 30000`. -/
theorem onClose_crash_step (cfg : Config) (now : Nat) (st : SrvState)
    (hauto : cfg.auto_restart = true)
    (hss : st.shouldStop = false) (hrp : st.restartPending = false)
    (hwin : now - st.lastCrashTime ≤ resetWindow)
    (hcc : st.crashCount + 1 ≤ jsOrNat cfg.max_restart_attempts 5) :
    onClose cfg now st =
      ⟨crashedState st now,
       [Event.status Status.stopped, Event.console "--- Server stopped ---",
        Event.stoppedEvt false,
        Event.console ("[SYSTEM] Server crashed unexpectedly. Auto-restarting... (attempt "
          ++ toString (st.crashCount + 1) ++ "/"
          ++ toString (jsOrNat cfg.max_restart_attempts 5) ++ ")")],
       some (min (5000 * (st.crashCount + 1)) 30000), none⟩ := by
  unfold onClose crashedState
  simp [hauto, hss, hrp, Nat.not_lt.mpr hwin, hcc]

/-- Evaluation of the close handler on an unintentional exit within the
reset window that exceeds the restart budget: the counter still bumps
but no restart is scheduled and the alert goes out on the console
channel only. -/
theorem onClose_crash_exceeded (cfg : Config) (now : Nat) (st : SrvState)
    (hauto : cfg.auto_restart = true)
    (hss : st.shouldStop = false) (hrp : st.restartPending = false)
    (hwin : now - st.lastCrashTime ≤ resetWindow)
    (hcc : jsOrNat cfg.max_restart_attempts 5 < st.crashCount + 1) :
    onClose cfg now st =
      ⟨crashedState st now,
       [Event.status Status.stopped, Event.console "--- Server stopped ---",
        Event.stoppedEvt false,
        Event.console ("[SYSTEM] Server crashed " ++ toString (st.crashCount + 1)
          ++ " times. Auto-restart disabled. Please check server logs.")],
       none, none⟩ := by
  unfold onClose crashedState
  simp [hauto, hss, hrp, Nat.not_lt.mpr hwin, Nat.not_le.mpr hcc]

/-- The scheduled restart delays along a run of consecutive
unintentional exits, each within the reset window of the previous and
all within the restart budget: the n-th exit schedules a delay of
`min (5000 * n) 30000`, counting from the initial crash count. -/
theorem crashRun_delays (cfg : Config) (env : StartEnv) (times : List Nat)
    (st : SrvState) (k : Nat)
    (hauto : cfg.auto_restart = true)
    (hss : st.shouldStop = false) (hrp : st.restartPending = false)
    (hcc : st.crashCount = k)
    (hchain : List.Chain' (fun a b => a ≤ b ∧ b - a ≤ resetWindow) (st.lastCrashTime :: times))
    (hbound : k + times.length ≤ jsOrNat cfg.max_restart_attempts 5) :
    crashRun cfg env times st =
      (List.range times.length).map (fun i => some (min (5000 * (k + i + 1)) 30000)) := by
  induction times generalizing st k with
  | nil => simp [crashRun]
  | cons t ts ih =>
      subst hcc
      rw [List.chain'_cons] at hchain
      obtain ⟨⟨hle, hwin⟩, hrest⟩ := hchain
      simp only [List.length_cons] at hbound ⊢
      have hstep := onClose_crash_step cfg t st hauto hss hrp hwin (by omega)
      obtain ⟨f1, f2, f3, f4⟩ := start_fields_of_stopped env (crashedState st t) rfl
      unfold crashRun
      rw [hstep]
      simp only [crashTimerFire]
      rw [if_neg (by simp [crashedState, hss])]
      rw [ih (start env (crashedState st t)).state (st.crashCount + 1) f1
        (f2.trans (by simp [crashedState, hrp])) (f3.trans (by simp [crashedState]))
        (by rw [f4]; exact hrest) (by omega)]
      rw [List.range_succ_eq_map, List.map_cons, List.map_map]
      simp only [List.cons.injEq]
      refine ⟨by norm_num, ?_⟩
      apply List.map_congr_left
      intro i _
      simp only [Function.comp, Nat.succ_eq_add_one]
      congr 2
      omega

/-- Claim C4: with auto-restart enabled and the default maximum of five
attempts, the delay scheduled after the n-th consecutive unintentional
exit within the reset window is `min (5000 * n) 30000`; in particular a
fresh launch followed by three crashes at 0 s, 60 s and 120 s schedules
delays of exactly 5000 ms, 10000 ms and 15000 ms, in that order. -/
theorem crash_backoff_delays (cfg : Config) (env : StartEnv) (times : List Nat)
    (pr : Option Proc) (sta : Status)
    (hauto : cfg.auto_restart = true)
    (hmax : jsOrNat cfg.max_restart_attempts 5 = 5)
    (hchain : List.Chain' (fun a b => a ≤ b ∧ b - a ≤ resetWindow) (0 :: times))
    (hlen : times.length ≤ 5) :
    crashRun cfg env times ⟨pr, sta, false, 0, 0, false⟩ =
      (List.range times.length).map (fun i => some (min (5000 * (i + 1)) 30000)) ∧
    crashRun cfg env [0, 60000, 120000] ⟨pr, sta, false, 0, 0, false⟩ =
      [some 5000, some 10000, some 15000] := by
  constructor
  · have h := crashRun_delays cfg env times ⟨pr, sta, false, 0, 0, false⟩ 0 hauto rfl rfl rfl
      hchain (by rw [hmax]; omega)
    simpa using h
  · have h := crashRun_delays cfg env [0, 60000, 120000] ⟨pr, sta, false, 0, 0, false⟩ 0 hauto
      rfl rfl rfl (by norm_num [List.chain'_cons, resetWindow]) (by rw [hmax]; decide)
    rw [h]
    decide

/-- Witness for C4 with the default configuration and the concrete
crash times 0 s, 60 s, 120 s. -/
theorem crash_backoff_delays_witness :
    (⟨true, some 5, none⟩ : Config).auto_restart = true ∧
      jsOrNat (⟨true, some 5, none⟩ : Config).max_restart_attempts 5 = 5 ∧
      List.Chain' (fun a b => a ≤ b ∧ b - a ≤ resetWindow) (0 :: [0, 60000, 120000]) ∧
      ([0, 60000, 120000] : List Nat).length ≤ 5 ∧
      (crashRun ⟨true, some 5, none⟩ ⟨true, true, true, false, false, true, ⟨2, true⟩⟩
          [0, 60000, 120000] ⟨none, Status.starting, false, 0, 0, false⟩ =
        (List.range ([0, 60000, 120000] : List Nat).length).map
          (fun i => some (min (5000 * (i + 1)) 30000)) ∧
      crashRun ⟨true, some 5, none⟩ ⟨true, true, true, false, false, true, ⟨2, true⟩⟩
          [0, 60000, 120000] ⟨none, Status.starting, false, 0, 0, false⟩ =
        [some 5000, some 10000, some 15000]) :=
  ⟨rfl, rfl, by norm_num [List.chain'_cons, resetWindow], by decide,
   crash_backoff_delays ⟨true, some 5, none⟩ ⟨true, true, true, false, false, true, ⟨2, true⟩⟩
     [0, 60000, 120000] none Status.starting rfl rfl
     (by norm_num [List.chain'_cons, resetWindow]) (by decide)⟩

/-- Counterexample to claim C5 as stated: on the sixth consecutive
unintentional exit within the reset window (maximum five attempts) the
code schedules no restart — but it emits no `crashAlert` event either;
the alert exists only as a console log line. -/
theorem no_crashAlert_on_sixth_crash :
    (onClose ⟨true, some 5, none⟩ 100
        ⟨some ⟨1, true⟩, Status.starting, false, 5, 0, false⟩).crashRestartDelay = none ∧
      ((onClose ⟨true, some 5, none⟩ 100
          ⟨some ⟨1, true⟩, Status.starting, false, 5, 0, false⟩).events.any
        fun e => match e with | Event.crashAlert _ => true | _ => false) = false := by
  decide

/-- Claim C5 as amended: when the crash counter exceeds the configured
maximum (a sixth unintentional exit within the reset window with
maximum five), no further restart is scheduled and a console alert line
carrying the attempt count is emitted — no dedicated `crashAlert` event
exists in the code — and a subsequent launch whose stdout matches the
ready marker resets the attempt counter to 0. -/
theorem crash_budget_exhausted (cfg : Config) (now : Nat) (st : SrvState)
    (n : Nat) (data : String) (st2 : SrvState)
    (hauto : cfg.auto_restart = true)
    (hmax : jsOrNat cfg.max_restart_attempts 5 = 5)
    (hss : st.shouldStop = false) (hrp : st.restartPending = false)
    (hcc : st.crashCount = 5)
    (hwin : now - st.lastCrashTime ≤ resetWindow)
    (hready : isReadyLine data = true) :
    (onClose cfg now st).crashRestartDelay = none ∧
    Event.console ("[SYSTEM] Server crashed " ++ toString 6
        ++ " times. Auto-restart disabled. Please check server logs.")
      ∈ (onClose cfg now st).events ∧
    Event.crashAlert n ∉ (onClose cfg now st).events ∧
    (onStdoutData data st2).1.crashCount = 0 := by
  have h := onClose_crash_exceeded cfg now st hauto hss hrp hwin (by rw [hmax, hcc]; omega)
  rw [h]
  refine ⟨rfl, ?_, ?_, ?_⟩
  · simp [hcc]
  · simp
  · simp [onStdoutData, hready]

/-- Witness for the amended C5 at the concrete sixth exit. -/
theorem crash_budget_exhausted_witness :
    (⟨true, some 5, none⟩ : Config).auto_restart = true ∧
      jsOrNat (⟨true, some 5, none⟩ : Config).max_restart_attempts 5 = 5 ∧
      (⟨some ⟨1, true⟩, Status.starting, false, 5, 0, false⟩ : SrvState).shouldStop = false ∧
      (⟨some ⟨1, true⟩, Status.starting, false, 5, 0, false⟩ : SrvState).restartPending = false ∧
      (⟨some ⟨1, true⟩, Status.starting, false, 5, 0, false⟩ : SrvState).crashCount = 5 ∧
      100 - (⟨some ⟨1, true⟩, Status.starting, false, 5, 0, false⟩ : SrvState).lastCrashTime
        ≤ resetWindow ∧
      isReadyLine "Done" = true ∧
      ((onClose ⟨true, some 5, none⟩ 100
          ⟨some ⟨1, true⟩, Status.starting, false, 5, 0, false⟩).crashRestartDelay = none ∧
        Event.console ("[SYSTEM] Server crashed " ++ toString 6
            ++ " times. Auto-restart disabled. Please check server logs.")
          ∈ (onClose ⟨true, some 5, none⟩ 100
              ⟨some ⟨1, true⟩, Status.starting, false, 5, 0, false⟩).events ∧
        Event.crashAlert 6 ∉ (onClose ⟨true, some 5, none⟩ 100
            ⟨some ⟨1, true⟩, Status.starting, false, 5, 0, false⟩).events ∧
        (onStdoutData "Done" ⟨none, Status.starting, false, 5, 0, false⟩).1.crashCount = 0) :=
  ⟨rfl, rfl, rfl, rfl, rfl, by decide, by decide,
   crash_budget_exhausted ⟨true, some 5, none⟩ 100
     ⟨some ⟨1, true⟩, Status.starting, false, 5, 0, false⟩ 6 "Done"
     ⟨none, Status.starting, false, 5, 0, false⟩ rfl rfl rfl rfl rfl (by decide) (by decide)⟩

/-- Claim C6 concerns a code bug: `restart()` on a running server marks
the exit intentional (`shouldStop = true`, and the `stopped` event of
the subsequent close indeed carries `wasIntentional = true`), yet the
close handler still runs the crash policy for that exit — the one-shot
restart listener clears `shouldStop` during the `stopped` emission,
before the handler reaches the auto-restart check — so with
auto-restart enabled the crash counter bumps to 1 and a 5000 ms crash
restart is scheduled alongside the 2000 ms restart of `restart()`
itself. -/
theorem restart_triggers_crash_policy :
    (restart ⟨some ⟨7, true⟩, Status.running, false, 0, 0, false⟩).state.shouldStop = true ∧
    Event.stoppedEvt true ∈
      (onClose ⟨true, some 5, none⟩ 3000
        (restart ⟨some ⟨7, true⟩, Status.running, false, 0, 0, false⟩).state).events ∧
    (onClose ⟨true, some 5, none⟩ 3000
        (restart ⟨some ⟨7, true⟩, Status.running, false, 0, 0, false⟩).state).crashRestartDelay
      = some 5000 ∧
    (onClose ⟨true, some 5, none⟩ 3000
        (restart ⟨some ⟨7, true⟩, Status.running, false, 0, 0, false⟩).state).restartStartDelay
      = some 2000 ∧
    (onClose ⟨true, some 5, none⟩ 3000
        (restart ⟨some ⟨7, true⟩, Status.running, false, 0, 0, false⟩).state).state.crashCount
      = 1 := by
  decide

end DevzServer
